import Mathlib

/-
Verification of the masked batch-normalization module
(`func_active_bn.py`: `BatchNormalization`, `BatchNormalizationGrad`,
`FixedBatchNormalization`, `FixedBatchNormalizationGrad` and the helpers
`_x_hat`, `_apply_bn_fwd`, `check_type_forward`).

Modelling conventions:
* Numeric arrays are embedded as functions `Fin B → Fin C → Fin T → ℚ`
  (batch, channel, sequence): the masked variant transposes axes `(0, 2, 1)`,
  which pins the supported layout to exactly three dimensions with a
  one-dimensional channel shape.  Floating-point arithmetic is modelled as
  exact rational arithmetic.
* The floating-point square-root / reciprocal-square-root (`var ** (-0.5)`
  in the masked forward, `xp.sqrt` in the fixed forward) has no exact
  rational counterpart, so it is carried as an explicit function parameter
  `rsqrt`/`sqrtQ`; every statement quantifies over it.
* The mask is carried as `Fin B → Fin T → Bool`: the boolean-selection +
  `reshape(-1, C)` step of the source is meaningful only when the broadcast
  mask is uniform across the channel axis (in the calling network the mask
  has shape `(B, 1, T)`), so the per-(batch, position) boolean content is
  the faithful value-level model.
* Shape/dtype validation (`check_type_forward`) and the rank-sensitivity of
  the `transpose(0, 2, 1)` step are modelled separately at the shape level,
  with shapes as `List ℕ` and the numpy broadcast rules spelled out.
* In-place mutation of the caller-owned running statistics is modelled by
  returning the updated arrays in the result record.
-/

namespace ActiveBN

/-! ## Shape / dtype level (validation and rank behaviour) -/

/-- Kind of a numpy dtype, as tested by `x_type.dtype.kind == 'f'`. -/
inductive DTypeKind where
  | f
  | i
  | u
  | b
deriving DecidableEq

/-- A numpy dtype: kind plus bit width (e.g. float32 = `⟨.f, 32⟩`). -/
structure DType where
  kind : DTypeKind
  bits : ℕ
deriving DecidableEq

/-- The statically checked description of an array argument: its shape and
dtype, as available to `check_type_forward`. -/
structure ArrayType where
  shape : List ℕ
  dtype : DType
deriving DecidableEq

/-- Number of dimensions of an array, `arr.ndim`. -/
def ArrayType.ndim (a : ArrayType) : ℕ := a.shape.length

/-- `BatchNormalization.check_type_forward` (source lines 34-46): the
conjunction of constraints passed to `type_check.expect`; chainer raises
`InvalidType` (the spec's ShapeError) before `forward` runs when any
constraint fails. -/
def checkTypeForward (x gamma beta : ArrayType) : Bool :=
  decide (x.dtype.kind = DTypeKind.f) &&
  decide (gamma.ndim + 1 ≤ x.ndim) &&
  decide ((x.shape.drop 1).take gamma.ndim = gamma.shape) &&
  decide (gamma.dtype = x.dtype) &&
  decide (beta.dtype = x.dtype) &&
  decide (gamma.shape = beta.shape)

/-- `FixedBatchNormalization.check_type_forward` (source lines 158-173):
the masked-variant constraints extended with the dtype and shape
constraints on `mean` and `var`. -/
def fixedCheckTypeForward (x gamma beta mean var : ArrayType) : Bool :=
  decide (x.dtype.kind = DTypeKind.f) &&
  decide (gamma.ndim + 1 ≤ x.ndim) &&
  decide ((x.shape.drop 1).take gamma.ndim = gamma.shape) &&
  decide (gamma.dtype = x.dtype) &&
  decide (beta.dtype = x.dtype) &&
  decide (gamma.shape = beta.shape) &&
  decide (mean.dtype = x.dtype) &&
  decide (mean.shape = gamma.shape) &&
  decide (var.dtype = x.dtype) &&
  decide (var.shape = gamma.shape)

/-- Left-pad a shape with singleton dimensions up to length `n`
(numpy's right-aligned broadcasting convention). -/
def padToLen (s : List ℕ) (n : ℕ) : List ℕ :=
  List.replicate (n - s.length) 1 ++ s

/-- Whether `numpy.broadcast_to(arr, dst)` succeeds for an array of shape
`src`: `src` may not be longer than `dst`, and each right-aligned source
dimension must be `1` or equal to the target dimension. -/
def broadcastToOK (src dst : List ℕ) : Bool :=
  decide (src.length ≤ dst.length) &&
  (List.zip (padToLen src dst.length) dst).all (fun p => p.1 == 1 || p.1 == p.2)

/-- Broadcast of a single pair of dimensions in a binary elementwise
operation: equal, or one of them is `1`. -/
def broadcastDim2 (a b : ℕ) : Option ℕ :=
  if a = b then some a
  else if a = 1 then some b
  else if b = 1 then some a
  else none

/-- Broadcast two already-padded shapes dimension by dimension. -/
def broadcastShapes : List ℕ → List ℕ → Option (List ℕ)
  | [], [] => some []
  | a :: as, b :: bs =>
    match broadcastDim2 a b, broadcastShapes as bs with
    | some d, some ds => some (d :: ds)
    | _, _ => none
  | _, _ => none

/-- Result shape of a binary elementwise numpy operation on shapes `a` and
`b`, or `none` when the shapes are incompatible. -/
def broadcastPair (a b : List ℕ) : Option (List ℕ) :=
  broadcastShapes (padToLen a (max a.length b.length)) (padToLen b (max a.length b.length))

/-- Shape behaviour of `arr.transpose(0, 2, 1)`: numpy raises
`ValueError: axes don't match array` unless the array has exactly three
dimensions. -/
def transpose021 : List ℕ → Option (List ℕ)
  | [a, b, c] => some [a, c, b]
  | _ => none

/-- The shape produced by indexing a channel-shaped array with the
`expander` tuple `(None, Ellipsis) + (None,) * (x.ndim - head_ndim)`
(source lines 61-62): one singleton axis in front, the channel shape,
then trailing singleton axes up to `x.ndim`. -/
def expanderShape (cs : List ℕ) (xndim head : ℕ) : List ℕ :=
  1 :: cs ++ List.replicate (xndim - head) 1

/-- Shape-level trace of `BatchNormalization.forward` (source lines
48-89): broadcast the mask to `x.shape` (line 68), transpose `x` and the
mask with axes `(0, 2, 1)` (lines 69-70), take the per-channel statistics
(shape = last dimension of the transposed array, lines 72-75), apply the
normalization over the full tensor through the expander (line 77), update
the running statistics in place (lines 82-85, requiring the per-channel
statistics to broadcast back onto `gamma`'s shape), and multiply the
output in place by the original mask (line 86).  Returns the output shape
on success and `none` where numpy raises.  Value-dependent failure modes
(the divisibility requirement of `reshape(-1, C)` on a non-channel-uniform
mask) are below the shape level and are not modelled here. -/
def maskedForwardShape (xS maskS gammaS : List ℕ) : Option (List ℕ) :=
  if broadcastToOK maskS xS then
    match transpose021 xS with
    | none => none
    | some xT =>
      match xT with
      | [_, _, cdim] =>
        let head := gammaS.length + 1
        let meanE := expanderShape [cdim] xS.length head
        let gammaE := expanderShape gammaS xS.length head
        match broadcastPair xS meanE with
        | none => none
        | some s1 =>
          match broadcastPair s1 gammaE with
          | none => none
          | some yS =>
            match broadcastPair gammaS [cdim] with
            | none => none
            | some rS =>
              if rS = gammaS then
                match broadcastPair yS maskS with
                | none => none
                | some mY => if mY = yS then some yS else none
              else none
      | _ => none
  else none

/-! ## Value level: masked batch normalization (3-D tensors over ℚ) -/

/-- Numeric value of a boolean mask entry, as used by the in-place
multiplications `y *= self.orig_mask` and `gx *= self.orig_mask`. -/
def maskQ {B T : ℕ} (mask : Fin B → Fin T → Bool) (b : Fin B) (t : Fin T) : ℚ :=
  if mask b t then 1 else 0

/-- The set of active (batch, position) pairs selected by the boolean
indexing `active_x = active_x[self.mask]` (source line 72). -/
def activeSet {B T : ℕ} (mask : Fin B → Fin T → Bool) : Finset (Fin B × Fin T) :=
  Finset.univ.filter (fun p => mask p.1 p.2 = true)

/-- Number of active elements per channel: the row count of the selected
`(num_active, C)` matrix. -/
def numActive {B T : ℕ} (mask : Fin B → Fin T → Bool) : ℕ :=
  (activeSet mask).card

/-- Sum of a per-(batch, position) quantity over the active set: one column
sum of the selected `(num_active, C)` matrix. -/
def activeSum {B T : ℕ} (mask : Fin B → Fin T → Bool) (f : Fin B → Fin T → ℚ) : ℚ :=
  ∑ p ∈ activeSet mask, f p.1 p.2

/-- `active_x.mean(axis=0)` for one channel column (source line 73). -/
def activeMean {B T : ℕ} (mask : Fin B → Fin T → Bool) (f : Fin B → Fin T → ℚ) : ℚ :=
  activeSum mask f / (numActive mask : ℚ)

/-- `active_x.var(axis=0)` for one channel column (source line 74): numpy's
population variance, the mean of the squared deviations from the mean. -/
def activeVar {B T : ℕ} (mask : Fin B → Fin T → Bool) (f : Fin B → Fin T → ℚ) : ℚ :=
  activeMean mask (fun b t => (f b t - activeMean mask f) ^ 2)

/-- `_x_hat` (source lines 283-286). -/
def xhat (x mean invStd : ℚ) : ℚ := (x - mean) * invStd

/-- `_apply_bn_fwd` on the numpy path (source lines 289-301):
`gamma * x_hat + beta`, all arguments already broadcast. -/
def applyBnFwd (x mean invStd gamma beta : ℚ) : ℚ :=
  gamma * xhat x mean invStd + beta

/-- `adjust = m / max(m - 1., 1.)` (source line 81), Bessel's correction
factor for the running-variance update. -/
def bnAdjust (m : ℕ) : ℚ := (m : ℚ) / max ((m : ℚ) - 1) 1

/-- Everything `BatchNormalization.forward` returns or caches. -/
structure MaskedBNResult (B C T : ℕ) where
  y : Fin B → Fin C → Fin T → ℚ
  runningMean : Fin C → ℚ
  runningVar : Fin C → ℚ
  mean : Fin C → ℚ
  var : Fin C → ℚ
  invStd : Fin C → ℚ

/-- Core of `BatchNormalization.forward` (source lines 48-89) once the
running-statistics arrays `rm`, `rv` have been chosen: per-channel mean
and variance over the active elements only (lines 72-74, `var` includes
`eps`), `inv_std = var ** (-0.5)` through the `rsqrt` parameter (line 75),
normalized output over the full tensor (line 77), running statistics
updated with `m = active_x.size // gamma.size` (lines 80-85), and the
output multiplied by the raw mask (line 86). -/
def maskedBNCompute {B C T : ℕ} (rsqrt : ℚ → ℚ) (eps decay : ℚ)
    (rm rv : Fin C → ℚ)
    (x : Fin B → Fin C → Fin T → ℚ) (gamma beta : Fin C → ℚ)
    (mask : Fin B → Fin T → Bool) : MaskedBNResult B C T :=
  let mean : Fin C → ℚ := fun c => activeMean mask (fun b t => x b c t)
  let var : Fin C → ℚ := fun c => activeVar mask (fun b t => x b c t) + eps
  let invStd : Fin C → ℚ := fun c => rsqrt (var c)
  let m : ℕ := (numActive mask * C) / C
  { y := fun b c t =>
      applyBnFwd (x b c t) (mean c) (invStd c) (gamma c) (beta c) * maskQ mask b t
    runningMean := fun c => decay * rm c + (1 - decay) * mean c
    runningVar := fun c => decay * rv c + (1 - decay) * bnAdjust m * var c
    mean := mean
    var := var
    invStd := invStd }

/-- `BatchNormalization.forward` including the running-statistics handling
of source lines 54-56 and 82-85: when `running_mean` is absent BOTH
statistics are replaced by fresh zero arrays shaped like `gamma`
(a supplied `running_var` is never consulted); when `running_mean` is
supplied but `running_var` is absent, the in-place update
`self.running_var *= self.decay` on line 84 raises a `TypeError`
(`None` has no `*=`), so the call fails and returns nothing. -/
def maskedBNForward {B C T : ℕ} (rsqrt : ℚ → ℚ) (eps decay : ℚ)
    (rmOpt rvOpt : Option (Fin C → ℚ))
    (x : Fin B → Fin C → Fin T → ℚ) (gamma beta : Fin C → ℚ)
    (mask : Fin B → Fin T → Bool) : Except String (MaskedBNResult B C T) :=
  match rmOpt with
  | none =>
    Except.ok (maskedBNCompute rsqrt eps decay (fun _ => 0) (fun _ => 0) x gamma beta mask)
  | some rm =>
    match rvOpt with
    | some rv => Except.ok (maskedBNCompute rsqrt eps decay rm rv x gamma beta mask)
    | none => Except.error "TypeError: unsupported operand type for NoneType"

/-- The three outputs of `BatchNormalizationGrad.forward`. -/
structure MaskedBNGradResult (B C T : ℕ) where
  gx : Fin B → Fin C → Fin T → ℚ
  ggamma : Fin C → ℚ
  gbeta : Fin C → ℚ

/-- Core of `BatchNormalizationGrad.forward` (source lines 115-147) on the
numpy path, given the cached `mean`, `inv_std` and mask from the matching
forward call: `gbeta` and `ggamma` sum over the active elements only
(lines 120-127), `gx` is the full-tensor expression of lines 129-130 with
`inv_m = 1 / (active_gy.size // gamma.size)`, multiplied in place by the
raw mask on line 145. -/
def maskedBNGradCompute {B C T : ℕ} (mean invStd : Fin C → ℚ)
    (mask : Fin B → Fin T → Bool)
    (x : Fin B → Fin C → Fin T → ℚ) (gamma : Fin C → ℚ)
    (gy : Fin B → Fin C → Fin T → ℚ) : MaskedBNGradResult B C T :=
  let invM : ℚ := (((numActive mask * C) / C : ℕ) : ℚ)⁻¹
  let gbeta : Fin C → ℚ := fun c => activeSum mask (fun b t => gy b c t)
  let xh : Fin B → Fin C → Fin T → ℚ := fun b c t => xhat (x b c t) (mean c) (invStd c)
  let ggamma : Fin C → ℚ := fun c => activeSum mask (fun b t => gy b c t * xh b c t)
  { gx := fun b c t =>
      (gamma c * invStd c) * (gy b c t - (xh b c t * ggamma c + gbeta c) * invM)
        * maskQ mask b t
    ggamma := ggamma
    gbeta := gbeta }

/-- `BatchNormalizationGrad.forward` including its failure mode: the line
`inv_m = gamma.dtype.type(1. / (active_gy.size // gamma.size))` raises a
`ZeroDivisionError` when the integer quotient is zero (no active element,
or an empty channel axis). -/
def maskedBNGrad {B C T : ℕ} (mean invStd : Fin C → ℚ)
    (mask : Fin B → Fin T → Bool)
    (x : Fin B → Fin C → Fin T → ℚ) (gamma : Fin C → ℚ)
    (gy : Fin B → Fin C → Fin T → ℚ) : Except String (MaskedBNGradResult B C T) :=
  if (numActive mask * C) / C = 0 then
    Except.error "ZeroDivisionError: float division by zero"
  else
    Except.ok (maskedBNGradCompute mean invStd mask x gamma gy)

/-! ## Value level: fixed batch normalization -/

/-- Output and cached state of `FixedBatchNormalization.forward`. -/
structure FixedBNResult (B C T : ℕ) where
  y : Fin B → Fin C → Fin T → ℚ
  invStd : Fin C → ℚ
  invVar : Fin C → ℚ

/-- `FixedBatchNormalization.forward` (source lines 175-195) at the 3-D,
one-channel-axis layout: `var = var + eps`, `inv_var = 1 / var`,
`inv_std = sqrt(inv_var)` through the `sqrtQ` parameter, and
`y = gamma * (x - mean) * inv_std + beta` over the full, unmasked
tensor. -/
def fixedBNForward {B C T : ℕ} (sqrtQ : ℚ → ℚ) (eps : ℚ)
    (x : Fin B → Fin C → Fin T → ℚ) (gamma beta mean var : Fin C → ℚ) :
    FixedBNResult B C T :=
  let varE : Fin C → ℚ := fun c => var c + eps
  let invVar : Fin C → ℚ := fun c => (varE c)⁻¹
  let invStd : Fin C → ℚ := fun c => sqrtQ (invVar c)
  { y := fun b c t => applyBnFwd (x b c t) (mean c) (invStd c) (gamma c) (beta c)
    invStd := invStd
    invVar := invVar }

/-- The cached-statistics resolution at the top of
`FixedBatchNormalizationGrad.forward` (source lines 220-222): when either
cached value is absent, both `inv_var` and `inv_std` are recomputed from
`var` and `eps`. -/
def resolveFixedStats {C : ℕ} (sqrtQ : ℚ → ℚ) (eps : ℚ) (var : Fin C → ℚ)
    (cachedInvStd cachedInvVar : Option (Fin C → ℚ)) :
    (Fin C → ℚ) × (Fin C → ℚ) :=
  match cachedInvStd, cachedInvVar with
  | some s, some v => (s, v)
  | _, _ =>
    let iv : Fin C → ℚ := fun c => (var c + eps)⁻¹
    (fun c => sqrtQ (iv c), iv)

/-- The five outputs of `FixedBatchNormalizationGrad.forward`. -/
structure FixedBNGradResult (B C T : ℕ) where
  gx : Fin B → Fin C → Fin T → ℚ
  ggamma : Fin C → ℚ
  gbeta : Fin C → ℚ
  gmean : Fin C → ℚ
  gvar : Fin C → ℚ

/-- `FixedBatchNormalizationGrad.forward` (source lines 214-234) at the
3-D, one-channel-axis layout, where the reduction axes
`self.axis = (0, 2)` are the batch and sequence axes: all five gradients
over the full, unmasked tensor. -/
def fixedBNGrad {B C T : ℕ} (sqrtQ : ℚ → ℚ) (eps : ℚ)
    (cachedInvStd cachedInvVar : Option (Fin C → ℚ))
    (x : Fin B → Fin C → Fin T → ℚ) (gamma mean var : Fin C → ℚ)
    (gy : Fin B → Fin C → Fin T → ℚ) : FixedBNGradResult B C T :=
  let sv := resolveFixedStats sqrtQ eps var cachedInvStd cachedInvVar
  let invStd : Fin C → ℚ := sv.1
  let invVar : Fin C → ℚ := sv.2
  let gammaOverStd : Fin C → ℚ := fun c => gamma c * invStd c
  let xh : Fin B → Fin C → Fin T → ℚ := fun b c t => xhat (x b c t) (mean c) (invStd c)
  let gbeta : Fin C → ℚ := fun c => ∑ b, ∑ t, gy b c t
  let ggamma : Fin C → ℚ := fun c => ∑ b, ∑ t, xh b c t * gy b c t
  { gx := fun b c t => gammaOverStd c * gy b c t
    ggamma := ggamma
    gbeta := gbeta
    gmean := fun c => -gammaOverStd c * gbeta c
    gvar := fun c => -(1 / 2) * gamma c * invVar c * ggamma c }

/-! ## Reference definitions taken from the spec's words (for C2) -/

/-- The multiset of the active elements of one channel column: the
brute-force "manually filtered" reference collection of the spec. -/
def activeVals {B T : ℕ} (mask : Fin B → Fin T → Bool) (f : Fin B → Fin T → ℚ) :
    Multiset ℚ :=
  (activeSet mask).val.map (fun p => f p.1 p.2)

/-- Plain arithmetic mean of the `k` active elements (spec reference). -/
def refMean {B T : ℕ} (mask : Fin B → Fin T → Bool) (f : Fin B → Fin T → ℚ) : ℚ :=
  (activeVals mask f).sum / ((activeVals mask f).card : ℚ)

/-- Plain population variance of the `k` active elements (spec
reference): mean of the squared deviations from their mean. -/
def refVar {B T : ℕ} (mask : Fin B → Fin T → Bool) (f : Fin B → Fin T → ℚ) : ℚ :=
  ((activeVals mask f).map (fun v => (v - refMean mask f) ^ 2)).sum /
    ((activeVals mask f).card : ℚ)

/-! ## Concrete inputs used by witnesses and counterexamples -/

/-- Witness input tensor, shape `(1, 1, 2)`. -/
def wX : Fin 1 → Fin 1 → Fin 2 → ℚ := fun _ _ t => if t.val = 0 then 4 else 6

/-- Witness scale. -/
def wGamma : Fin 1 → ℚ := fun _ => 2

/-- Witness shift. -/
def wBeta : Fin 1 → ℚ := fun _ => 3

/-- Witness mask: only position `t = 0` is active. -/
def wMaskOne : Fin 1 → Fin 2 → Bool := fun _ t => t.val == 0

/-- Witness mask: both positions active. -/
def wMaskAll : Fin 1 → Fin 2 → Bool := fun _ _ => true

/-- Witness upstream gradient, shape `(1, 1, 2)`. -/
def wGy : Fin 1 → Fin 1 → Fin 2 → ℚ := fun _ _ t => if t.val = 0 then 10 else 20

/-- Zero channel vector used as a supplied running statistic. -/
def wZeroC : Fin 1 → ℚ := fun _ => 0

/-- A nonzero channel vector used as a supplied running statistic. -/
def wFiveC : Fin 1 → ℚ := fun _ => 5

/-- All-ones channel vector used as a cached inverse standard deviation. -/
def wOneC : Fin 1 → ℚ := fun _ => 1

/-! ## Helper lemmas -/

/-- Any successful masked forward call computes `maskedBNCompute` at some
choice of running-statistics arrays. -/
theorem maskedBNForward_ok {B C T : ℕ} {rsqrt : ℚ → ℚ} {eps decay : ℚ}
    {rmOpt rvOpt : Option (Fin C → ℚ)} {x : Fin B → Fin C → Fin T → ℚ}
    {gamma beta : Fin C → ℚ} {mask : Fin B → Fin T → Bool}
    {r : MaskedBNResult B C T}
    (h : maskedBNForward rsqrt eps decay rmOpt rvOpt x gamma beta mask = Except.ok r) :
    ∃ rm rv, r = maskedBNCompute rsqrt eps decay rm rv x gamma beta mask := by
  cases rmOpt with
  | none =>
    refine ⟨fun _ => 0, fun _ => 0, ?_⟩
    simpa [maskedBNForward] using h.symm
  | some rm =>
    cases rvOpt with
    | none => simp [maskedBNForward] at h
    | some rv =>
      refine ⟨rm, rv, ?_⟩
      simpa [maskedBNForward] using h.symm

/-- Broadcasting a dimension with itself keeps it. -/
theorem broadcastDim2_self (a : ℕ) : broadcastDim2 a a = some a := by
  unfold broadcastDim2
  rw [if_pos rfl]

/-- Broadcasting any dimension against `1` keeps the dimension. -/
theorem broadcastDim2_one_right (a : ℕ) : broadcastDim2 a 1 = some a := by
  unfold broadcastDim2
  rcases eq_or_ne a 1 with h | h
  · subst h
    rw [if_pos rfl]
  · rw [if_neg h, if_neg h, if_pos rfl]

/-- Broadcasting `1` against any dimension yields that dimension. -/
theorem broadcastDim2_one_left (b : ℕ) : broadcastDim2 1 b = some b := by
  unfold broadcastDim2
  rcases eq_or_ne 1 b with h | h
  · rw [if_pos h, h]
  · rw [if_neg h, if_pos rfl]

/-- `transpose(0, 2, 1)` fails on every array whose rank is not 3. -/
theorem transpose021_eq_none {s : List ℕ} (h : s.length ≠ 3) :
    transpose021 s = none := by
  match s with
  | [] => rfl
  | [_] => rfl
  | [_, _] => rfl
  | [_, _, _] => exact absurd rfl h
  | _ :: _ :: _ :: _ :: _ => rfl

/-- The spec's brute-force mean agrees with the source's column mean. -/
theorem refMean_eq {B T : ℕ} (mask : Fin B → Fin T → Bool) (f : Fin B → Fin T → ℚ) :
    refMean mask f = activeMean mask f := by
  unfold refMean activeMean activeVals activeSum numActive
  rw [Finset.sum_eq_multiset_sum, Finset.card_def, Multiset.card_map]

/-- The spec's brute-force population variance agrees with the source's
column variance. -/
theorem refVar_eq {B T : ℕ} (mask : Fin B → Fin T → Bool) (f : Fin B → Fin T → ℚ) :
    refVar mask f = activeVar mask f := by
  unfold refVar activeVar
  rw [refMean_eq]
  unfold activeVals activeMean activeSum numActive
  rw [Multiset.map_map, Multiset.card_map]
  rfl

/-- Sums over the active set only consult active positions. -/
theorem activeSum_congr {B T : ℕ} {mask : Fin B → Fin T → Bool}
    {f g : Fin B → Fin T → ℚ} (h : ∀ b t, mask b t = true → f b t = g b t) :
    activeSum mask f = activeSum mask g := by
  unfold activeSum
  refine Finset.sum_congr rfl ?_
  intro p hp
  exact h p.1 p.2 (Finset.mem_filter.mp hp).2

/-- The active mean only consults active positions. -/
theorem activeMean_congr {B T : ℕ} {mask : Fin B → Fin T → Bool}
    {f g : Fin B → Fin T → ℚ} (h : ∀ b t, mask b t = true → f b t = g b t) :
    activeMean mask f = activeMean mask g := by
  unfold activeMean
  rw [activeSum_congr h]

/-- The active variance only consults active positions. -/
theorem activeVar_congr {B T : ℕ} {mask : Fin B → Fin T → Bool}
    {f g : Fin B → Fin T → ℚ} (h : ∀ b t, mask b t = true → f b t = g b t) :
    activeVar mask f = activeVar mask g := by
  unfold activeVar
  rw [activeMean_congr h]
  exact activeMean_congr (fun b t hbt => by rw [h b t hbt])

/-! ## Claims -/

/-- C1: for every masked forward call, the returned output (whose index
space is that of `x` by construction) is exactly `0` at every position
that the mask marks inactive, because the normalized value is multiplied
by the raw mask before being returned. -/
theorem masked_output_zero_at_inactive {B C T : ℕ} (rsqrt : ℚ → ℚ) (eps decay : ℚ)
    (rmOpt rvOpt : Option (Fin C → ℚ)) (x : Fin B → Fin C → Fin T → ℚ)
    (gamma beta : Fin C → ℚ) (mask : Fin B → Fin T → Bool)
    (r : MaskedBNResult B C T)
    (h : maskedBNForward rsqrt eps decay rmOpt rvOpt x gamma beta mask = Except.ok r)
    (b : Fin B) (c : Fin C) (t : Fin T) (hm : mask b t = false) :
    r.y b c t = 0 := by
  obtain ⟨rm, rv, hr⟩ := maskedBNForward_ok h
  subst hr
  simp [maskedBNCompute, maskQ, hm]

/-- Witness for C1 at a concrete `(1, 1, 2)` input with a half-inactive
mask. -/
theorem masked_output_zero_at_inactive_witness :
    (maskedBNCompute (fun q => q) 0 0 (fun _ => 0) (fun _ => 0)
        wX wGamma wBeta wMaskOne).y 0 0 1 = 0 :=
  masked_output_zero_at_inactive (fun q => q) 0 0 none none wX wGamma wBeta wMaskOne
    _ rfl 0 0 1 rfl

/-- C2: when the mask marks exactly `k` positions active, the per-channel
mean of a masked forward call is the plain arithmetic mean of those `k`
active elements, its per-channel variance is their plain population
variance plus `eps`, and the elements at padded positions contribute
nothing: changing them changes neither statistic. -/
theorem masked_stats_restrict_to_active {B C T : ℕ} (rsqrt : ℚ → ℚ) (eps decay : ℚ)
    (rmOpt rvOpt : Option (Fin C → ℚ)) (x : Fin B → Fin C → Fin T → ℚ)
    (gamma beta : Fin C → ℚ) (mask : Fin B → Fin T → Bool) (k : ℕ)
    (r : MaskedBNResult B C T)
    (h : maskedBNForward rsqrt eps decay rmOpt rvOpt x gamma beta mask = Except.ok r)
    (hk : numActive mask = k) (hk0 : 0 < k) (c : Fin C) :
    r.mean c = refMean mask (fun b t => x b c t) ∧
    r.var c = refVar mask (fun b t => x b c t) + eps ∧
    (∀ x' : Fin B → Fin C → Fin T → ℚ, ∀ r' : MaskedBNResult B C T,
      maskedBNForward rsqrt eps decay rmOpt rvOpt x' gamma beta mask = Except.ok r' →
      (∀ b t, mask b t = true → x' b c t = x b c t) →
      r'.mean c = r.mean c ∧ r'.var c = r.var c) := by
  obtain ⟨rm, rv, hr⟩ := maskedBNForward_ok h
  subst hr
  refine ⟨?_, ?_, ?_⟩
  · simp [maskedBNCompute, refMean_eq]
  · simp [maskedBNCompute, refVar_eq]
  · intro x' r' h' hx
    obtain ⟨rm', rv', hr'⟩ := maskedBNForward_ok h'
    subst hr'
    constructor
    · simpa [maskedBNCompute] using activeMean_congr hx
    · simpa [maskedBNCompute] using congrArg (fun q => q + eps) (activeVar_congr hx)

/-- Witness for C2: at the concrete half-masked input the forward mean is
the brute-force mean of the single active element. -/
theorem masked_stats_restrict_to_active_witness :
    numActive wMaskOne = 1 ∧
    (maskedBNCompute (fun q => q) 0 0 (fun _ => 0) (fun _ => 0)
        wX wGamma wBeta wMaskOne).mean 0 = refMean wMaskOne (fun b t => wX b 0 t) :=
  ⟨by decide,
    (masked_stats_restrict_to_active (fun q => q) 0 0 none none wX wGamma wBeta
      wMaskOne 1 _ rfl (by decide) (by decide) 0).1⟩

/-- C3: for every successful masked backward call with cached statistics
`mean`, `invStd` and the forward mask: `gbeta` sums `gy` over the active
elements only, `ggamma` sums `gy * x_hat` over the active elements only
with `x_hat = (x - mean) * invStd`, the returned `gx` is the full-tensor
expression `(gamma * invStd) * (gy - (x_hat * ggamma + gbeta) * inv_m)`
with `inv_m = 1 / numActive` multiplied by the raw mask, and in particular
`gx` is exactly `0` at every inactive position. -/
theorem masked_grad_formulas {B C T : ℕ} (mean invStd : Fin C → ℚ)
    (mask : Fin B → Fin T → Bool) (x : Fin B → Fin C → Fin T → ℚ)
    (gamma : Fin C → ℚ) (gy : Fin B → Fin C → Fin T → ℚ)
    (r : MaskedBNGradResult B C T)
    (h : maskedBNGrad mean invStd mask x gamma gy = Except.ok r) :
    (∀ c, r.gbeta c = activeSum mask (fun b t => gy b c t)) ∧
    (∀ c, r.ggamma c
        = activeSum mask (fun b t => gy b c t * ((x b c t - mean c) * invStd c))) ∧
    (∀ b c t, r.gx b c t
        = (gamma c * invStd c)
            * (gy b c t
                - (((x b c t - mean c) * invStd c) * r.ggamma c + r.gbeta c)
                    * (numActive mask : ℚ)⁻¹)
            * maskQ mask b t) ∧
    (∀ b c t, mask b t = false → r.gx b c t = 0) := by
  unfold maskedBNGrad at h
  split at h
  · cases h
  · rename_i hm
    have hr : r = maskedBNGradCompute mean invStd mask x gamma gy :=
      (Except.ok.injEq _ _).mp h.symm
    subst hr
    refine ⟨fun c => rfl, fun c => ?_, fun b c t => ?_, fun b c t hf => ?_⟩
    · simp [maskedBNGradCompute, xhat]
    · have hC : 0 < C := c.pos
      simp only [maskedBNGradCompute, xhat, Nat.mul_div_cancel _ hC]
    · simp [maskedBNGradCompute, maskQ, hf]

/-- Witness for C3 at the concrete half-masked input. -/
theorem masked_grad_formulas_witness :
    (maskedBNGradCompute wZeroC wOneC wMaskOne wX wGamma wGy).gbeta 0
      = activeSum wMaskOne (fun b t => wGy b 0 t) :=
  (masked_grad_formulas wZeroC wOneC wMaskOne wX wGamma wGy _
    (by unfold maskedBNGrad; rw [if_neg (by decide)])).1 0

/-- C4: every successful masked forward call with both running statistics
supplied updates them to `decay * old + (1 - decay) * mean` and
`decay * old + (1 - decay) * adjust * var` with
`adjust = m / max(m - 1, 1)` and `m` the number of active elements per
channel; starting from zero-initialized running statistics one call leaves
`running_mean = (1 - decay) * mean`. -/
theorem masked_running_stats_update {B C T : ℕ} (rsqrt : ℚ → ℚ) (eps decay : ℚ)
    (rm rv : Fin C → ℚ) (x : Fin B → Fin C → Fin T → ℚ)
    (gamma beta : Fin C → ℚ) (mask : Fin B → Fin T → Bool) :
    maskedBNForward rsqrt eps decay (some rm) (some rv) x gamma beta mask
      = Except.ok (maskedBNCompute rsqrt eps decay rm rv x gamma beta mask) ∧
    (∀ c : Fin C,
      (maskedBNCompute rsqrt eps decay rm rv x gamma beta mask).runningMean c
        = decay * rm c
            + (1 - decay)
                * (maskedBNCompute rsqrt eps decay rm rv x gamma beta mask).mean c) ∧
    (∀ c : Fin C,
      (maskedBNCompute rsqrt eps decay rm rv x gamma beta mask).runningVar c
        = decay * rv c
            + (1 - decay)
                * ((numActive mask : ℚ) / max ((numActive mask : ℚ) - 1) 1)
                * (maskedBNCompute rsqrt eps decay rm rv x gamma beta mask).var c) ∧
    (∀ c : Fin C,
      (maskedBNCompute rsqrt eps decay (fun _ => 0) (fun _ => 0)
          x gamma beta mask).runningMean c
        = (1 - decay)
            * (maskedBNCompute rsqrt eps decay (fun _ => 0) (fun _ => 0)
                x gamma beta mask).mean c) := by
  refine ⟨rfl, fun c => rfl, fun c => ?_, fun c => ?_⟩
  · have hC : 0 < C := c.pos
    simp only [maskedBNCompute, bnAdjust, Nat.mul_div_cancel _ hC]
  · simp [maskedBNCompute]

/-- C5: every fixed forward output is
`gamma * (x - mean) * inverse_std + beta` over the full tensor with
`inverse_std = sqrt(1 / (var + eps))` and no masking, and with
`mean = 0`, `var = 1`, `eps = 0` the output is exactly
`gamma * x + beta` (for any square-root function fixing `1`). -/
theorem fixed_forward_formula {B C T : ℕ} (sqrtQ : ℚ → ℚ) (eps : ℚ)
    (x : Fin B → Fin C → Fin T → ℚ) (gamma beta mean var : Fin C → ℚ)
    (hs : sqrtQ 1 = 1) :
    (∀ b c t, (fixedBNForward sqrtQ eps x gamma beta mean var).y b c t
        = gamma c * ((x b c t - mean c) * sqrtQ ((var c + eps)⁻¹)) + beta c) ∧
    (∀ b c t,
      (fixedBNForward sqrtQ 0 x gamma beta (fun _ => 0) (fun _ => 1)).y b c t
        = gamma c * x b c t + beta c) := by
  constructor
  · intro b c t
    rfl
  · intro b c t
    simp [fixedBNForward, applyBnFwd, xhat, hs]

/-- Witness for C5 at a concrete input with the identity as square
root. -/
theorem fixed_forward_formula_witness :
    (fixedBNForward (fun q => q) 0 wX wGamma wBeta (fun _ => 0) (fun _ => 1)).y 0 0 0
      = wGamma 0 * wX 0 0 0 + wBeta 0 :=
  (fixed_forward_formula (fun q => q) 0 wX wGamma wBeta wZeroC wOneC rfl).2 0 0 0

/-- C6: the five outputs of the fixed backward pass over the full tensor:
`gx = (gamma * inv_std) * gy`, `gbeta` and `ggamma` summed over the batch
and sequence axes, `gmean = -(gamma * inv_std) * gbeta`,
`gvar = -0.5 * gamma * inv_var * ggamma`; with nothing cached, `inv_var`
and `inv_std` are recomputed from `var` and `eps`, and with both cached
the cached values are used as is. -/
theorem fixed_grad_formulas {B C T : ℕ} (sqrtQ : ℚ → ℚ) (eps : ℚ)
    (x gy : Fin B → Fin C → Fin T → ℚ) (gamma mean var : Fin C → ℚ)
    (s v : Fin C → ℚ) :
    (∀ b c t, (fixedBNGrad sqrtQ eps none none x gamma mean var gy).gx b c t
        = (gamma c * sqrtQ ((var c + eps)⁻¹)) * gy b c t) ∧
    (∀ c, (fixedBNGrad sqrtQ eps none none x gamma mean var gy).gbeta c
        = ∑ b, ∑ t, gy b c t) ∧
    (∀ c, (fixedBNGrad sqrtQ eps none none x gamma mean var gy).ggamma c
        = ∑ b, ∑ t, ((x b c t - mean c) * sqrtQ ((var c + eps)⁻¹)) * gy b c t) ∧
    (∀ c, (fixedBNGrad sqrtQ eps none none x gamma mean var gy).gmean c
        = -(gamma c * sqrtQ ((var c + eps)⁻¹))
            * (fixedBNGrad sqrtQ eps none none x gamma mean var gy).gbeta c) ∧
    (∀ c, (fixedBNGrad sqrtQ eps none none x gamma mean var gy).gvar c
        = -(1 / 2) * gamma c * (var c + eps)⁻¹
            * (fixedBNGrad sqrtQ eps none none x gamma mean var gy).ggamma c) ∧
    (∀ b c t,
      (fixedBNGrad sqrtQ eps (some s) (some v) x gamma mean var gy).gx b c t
        = (gamma c * s c) * gy b c t) ∧
    (∀ c, (fixedBNGrad sqrtQ eps (some s) (some v) x gamma mean var gy).gmean c
        = -(gamma c * s c)
            * (fixedBNGrad sqrtQ eps (some s) (some v) x gamma mean var gy).gbeta c) ∧
    (∀ c, (fixedBNGrad sqrtQ eps (some s) (some v) x gamma mean var gy).gvar c
        = -(1 / 2) * gamma c * v c
            * (fixedBNGrad sqrtQ eps (some s) (some v) x gamma mean var gy).ggamma c) :=
  ⟨fun _ _ _ => rfl, fun _ => rfl, fun _ => rfl, fun _ => rfl, fun _ => rfl,
    fun _ _ _ => rfl, fun _ => rfl, fun _ => rfl⟩

/-- C7: the forward type checks of both variants reject every violated
input invariant: a `gamma`/`beta` shape mismatch, an input of rank below
`gamma.ndim + 1`, any dtype mismatch among `x`, `gamma`, `beta`, and (for
the fixed variant) any dtype mismatch of `mean` or `var` with `x`; chainer
raises the resulting `InvalidType` (the spec's ShapeError) from
`check_type_forward` before `forward` runs, so nothing is computed or
mutated. -/
theorem check_type_rejections (x g b m v : ArrayType) :
    (g.shape ≠ b.shape →
      checkTypeForward x g b = false ∧ fixedCheckTypeForward x g b m v = false) ∧
    (x.ndim < g.ndim + 1 →
      checkTypeForward x g b = false ∧ fixedCheckTypeForward x g b m v = false) ∧
    ((g.dtype ≠ x.dtype ∨ b.dtype ≠ x.dtype ∨ g.dtype ≠ b.dtype) →
      checkTypeForward x g b = false ∧ fixedCheckTypeForward x g b m v = false) ∧
    ((m.dtype ≠ x.dtype ∨ v.dtype ≠ x.dtype) →
      fixedCheckTypeForward x g b m v = false) := by
  have hM : checkTypeForward x g b = true →
      x.dtype.kind = DTypeKind.f ∧ g.ndim + 1 ≤ x.ndim ∧
      (x.shape.drop 1).take g.ndim = g.shape ∧ g.dtype = x.dtype ∧
      b.dtype = x.dtype ∧ g.shape = b.shape := by
    intro ht
    simpa [checkTypeForward, Bool.and_eq_true, decide_eq_true_eq, and_assoc] using ht
  have hF : fixedCheckTypeForward x g b m v = true →
      x.dtype.kind = DTypeKind.f ∧ g.ndim + 1 ≤ x.ndim ∧
      (x.shape.drop 1).take g.ndim = g.shape ∧ g.dtype = x.dtype ∧
      b.dtype = x.dtype ∧ g.shape = b.shape ∧ m.dtype = x.dtype ∧
      m.shape = g.shape ∧ v.dtype = x.dtype ∧ v.shape = g.shape := by
    intro ht
    simpa [fixedCheckTypeForward, Bool.and_eq_true, decide_eq_true_eq, and_assoc]
      using ht
  refine ⟨?_, ?_, ?_, ?_⟩
  · intro hne
    constructor <;> (rw [Bool.eq_false_iff]; intro ht)
    · exact hne (hM ht).2.2.2.2.2
    · exact hne (hF ht).2.2.2.2.2.1
  · intro hlt
    constructor <;> (rw [Bool.eq_false_iff]; intro ht)
    · exact absurd (hM ht).2.1 (Nat.not_le.mpr hlt)
    · exact absurd (hF ht).2.1 (Nat.not_le.mpr hlt)
  · intro hne
    constructor <;> (rw [Bool.eq_false_iff]; intro ht)
    · rcases hne with h1 | h2 | h3
      · exact h1 (hM ht).2.2.2.1
      · exact h2 (hM ht).2.2.2.2.1
      · exact h3 ((hM ht).2.2.2.1.trans (hM ht).2.2.2.2.1.symm)
    · rcases hne with h1 | h2 | h3
      · exact h1 (hF ht).2.2.2.1
      · exact h2 (hF ht).2.2.2.2.1
      · exact h3 ((hF ht).2.2.2.1.trans (hF ht).2.2.2.2.1.symm)
  · intro hne
    rw [Bool.eq_false_iff]
    intro ht
    rcases hne with h1 | h2
    · exact h1 (hF ht).2.2.2.2.2.2.1
    · exact h2 (hF ht).2.2.2.2.2.2.2.2.1

/-- Witness for C7: a concrete `gamma`/`beta` shape mismatch is
rejected. -/
theorem check_type_rejections_witness :
    checkTypeForward ⟨[2, 2], ⟨DTypeKind.f, 32⟩⟩ ⟨[2], ⟨DTypeKind.f, 32⟩⟩
        ⟨[3], ⟨DTypeKind.f, 32⟩⟩ = false :=
  ((check_type_rejections ⟨[2, 2], ⟨DTypeKind.f, 32⟩⟩ ⟨[2], ⟨DTypeKind.f, 32⟩⟩
      ⟨[3], ⟨DTypeKind.f, 32⟩⟩ ⟨[2], ⟨DTypeKind.f, 32⟩⟩ ⟨[2], ⟨DTypeKind.f, 32⟩⟩).1
    (by decide)).1

/-- C8 counterexample: with `decay = 2` (outside `[0, 1)`) AND only
`running_var` supplied (exactly one of the pair), the masked forward call
succeeds: no ConfigError — or any error — is raised. -/
theorem masked_config_error_counterexample :
    (maskedBNForward (fun q => q) 0 2 none (some wFiveC) wX wGamma wBeta
        wMaskOne).isOk = true := rfl

/-- C8 (amended): the masked forward performs no validation of `decay`
and no consistency check of the running-statistics pair: any `decay` is
accepted, supplying only `running_var` succeeds (both statistics are
rebuilt from zeros), supplying both succeeds, and the single failing
configuration is `running_mean` supplied with `running_var` absent, which
fails with a `TypeError` from the in-place running-variance update, not
with a synchronously detected ConfigError. -/
theorem masked_config_behavior {B C T : ℕ} (rsqrt : ℚ → ℚ) (eps decay : ℚ)
    (rm : Fin C → ℚ) (rvOpt : Option (Fin C → ℚ))
    (x : Fin B → Fin C → Fin T → ℚ) (gamma beta : Fin C → ℚ)
    (mask : Fin B → Fin T → Bool) :
    maskedBNForward rsqrt eps decay (some rm) none x gamma beta mask
      = Except.error "TypeError: unsupported operand type for NoneType" ∧
    (maskedBNForward rsqrt eps decay none rvOpt x gamma beta mask).isOk = true ∧
    (∀ rv, (maskedBNForward rsqrt eps decay (some rm) (some rv)
        x gamma beta mask).isOk = true) :=
  ⟨rfl, rfl, fun _ => rfl⟩

/-- C9: the masked forward's shape pipeline fails on every input the type
check accepts whose rank is not 3 (the `transpose(0, 2, 1)` raises), and
succeeds on the canonical 3-D layout with a 1-D channel shape and a
`(B, 1, T)` mask, returning `x`'s shape. -/
theorem masked_forward_requires_3d (xT gT bT : ArrayType) (maskS : List ℕ)
    (hchk : checkTypeForward xT gT bT = true)
    (hnd : xT.shape.length ≠ 3) :
    maskedForwardShape xT.shape maskS gT.shape = none ∧
    (∀ b0 c0 t0 : ℕ,
      maskedForwardShape [b0, c0, t0] [b0, 1, t0] [c0] = some [b0, c0, t0]) := by
  constructor
  · unfold maskedForwardShape
    split
    · rw [transpose021_eq_none hnd]
    · rfl
  · intro b0 c0 t0
    simp [maskedForwardShape, broadcastToOK, padToLen, transpose021, expanderShape,
      broadcastPair, broadcastShapes, broadcastDim2_self, broadcastDim2_one_left,
      broadcastDim2_one_right]

/-- Witness for C9: a 4-D input passes the type check yet the forward
shape pipeline fails. -/
theorem masked_forward_requires_3d_witness :
    maskedForwardShape [2, 3, 4, 5] [2, 1, 4, 5] [3] = none :=
  (masked_forward_requires_3d ⟨[2, 3, 4, 5], ⟨DTypeKind.f, 32⟩⟩
    ⟨[3], ⟨DTypeKind.f, 32⟩⟩ ⟨[3], ⟨DTypeKind.f, 32⟩⟩ [2, 1, 4, 5]
    (by decide) (by decide)).1

/-- C10: when `running_mean` is absent the masked forward behaves exactly
as if neither statistic were supplied — a supplied `running_var` is never
consulted and never enters the result — and both running statistics are
rebuilt from zeros, ending at `(1 - decay) * mean` and
`(1 - decay) * adjust * var`. -/
theorem masked_running_var_ignored {B C T : ℕ} (rsqrt : ℚ → ℚ) (eps decay : ℚ)
    (rv : Fin C → ℚ) (x : Fin B → Fin C → Fin T → ℚ)
    (gamma beta : Fin C → ℚ) (mask : Fin B → Fin T → Bool) :
    maskedBNForward rsqrt eps decay none (some rv) x gamma beta mask
      = maskedBNForward rsqrt eps decay none none x gamma beta mask ∧
    maskedBNForward rsqrt eps decay none (some rv) x gamma beta mask
      = Except.ok (maskedBNCompute rsqrt eps decay (fun _ => 0) (fun _ => 0)
          x gamma beta mask) ∧
    (∀ c, (maskedBNCompute rsqrt eps decay (fun _ => 0) (fun _ => 0)
        x gamma beta mask).runningMean c
      = (1 - decay)
          * (maskedBNCompute rsqrt eps decay (fun _ => 0) (fun _ => 0)
              x gamma beta mask).mean c) ∧
    (∀ c, (maskedBNCompute rsqrt eps decay (fun _ => 0) (fun _ => 0)
        x gamma beta mask).runningVar c
      = (1 - decay)
          * ((numActive mask : ℚ) / max ((numActive mask : ℚ) - 1) 1)
          * (maskedBNCompute rsqrt eps decay (fun _ => 0) (fun _ => 0)
              x gamma beta mask).var c) := by
  refine ⟨rfl, rfl, fun c => by simp [maskedBNCompute], fun c => ?_⟩
  have hC : 0 < C := c.pos
  simp only [maskedBNCompute, bnAdjust, Nat.mul_div_cancel _ hC, mul_zero, zero_add]

end ActiveBN
